import Mathlib

/-!
Verification of the SberSaluteSpeechRecognitionService client
(`src/index.ts` and `src/types.ts`).

The client wraps a cloud speech-recognition HTTP API: it exchanges a static
credential for a bearer token, uploads an audio file, starts an asynchronous
recognition job, polls the job status until "DONE" (subject to a timeout
ceiling), downloads the result, and flattens it into plain text plus
normalized text.

The embedding below is a shallow one: the HTTP transport, the clock and the
uuid generator are external collaborators, so every remote response, every
`Date.now()` reading consumed by the code, and the generated uuid are inputs
(oracles) to the Lean functions, while the request-building and control-flow
logic is translated directly from the TypeScript source.  Times are `Int`
(JavaScript millisecond timestamps).  The constants `MAX_WAIT_TIME` and
`RECOGNITION_POLLING_DELAY` come from `./constants`, a module not present in
the sources; since no claim depends on their concrete values, the functions
are parameterized over them.
-/

namespace SberSalute

/-- Type `SberSaluteToken` from `src/types.ts`: `{ access_token, expires_at }`. -/
structure SberSaluteToken where
  access_token : String
  expires_at : Int
deriving DecidableEq, Repr

/-- Type of `FileUploadResponse.result` from `src/types.ts`. -/
structure FileUploadResult where
  request_file_id : String
deriving DecidableEq, Repr

/-- Type `FileUploadResponse` from `src/types.ts`. -/
structure FileUploadResponse where
  result : FileUploadResult
deriving DecidableEq, Repr

/-- Type of `RecognitionResponse.result` from `src/types.ts`. -/
structure RecognitionResult where
  id : String
  created_at : String
  updated_at : String
  status : String
deriving DecidableEq, Repr

/-- Type `RecognitionResponse` from `src/types.ts`. -/
structure RecognitionResponse where
  result : RecognitionResult
deriving DecidableEq, Repr

/-- Type of `RecognitionStatusResponse.result` from `src/types.ts` (adds
`response_file_id` to the job descriptor). -/
structure RecognitionStatusResult where
  id : String
  created_at : String
  updated_at : String
  status : String
  response_file_id : String
deriving DecidableEq, Repr

/-- Type `RecognitionStatusResponse` from `src/types.ts`. -/
structure RecognitionStatusResponse where
  result : RecognitionStatusResult
deriving DecidableEq, Repr

/-- One `{text, normalized_text}` fragment of `RecognitionResultResponse`
from `src/types.ts`. -/
structure Fragment where
  text : String
  normalized_text : String
deriving DecidableEq, Repr

/-- One segment (`{results: [...]}`) of `RecognitionResultResponse` from
`src/types.ts`. -/
structure Segment where
  results : List Fragment
deriving DecidableEq, Repr

/-- Type `RecognitionResultResponse` from `src/types.ts`: an ordered sequence of
segments, each an ordered sequence of fragments. -/
def RecognitionResultResponse : Type := List Segment

/-- Type `SpeechToTextResult` from `src/types.ts`. -/
structure SpeechToTextResult where
  text : String
  normalizedText : String
deriving DecidableEq, Repr

/-- Audio format metadata, the part of `music-metadata`'s `IAudioMetadata`
the client reads (`format.sampleRate`, `format.numberOfChannels`). -/
structure AudioFormat where
  sampleRate : Option Nat
  numberOfChannels : Option Nat
deriving DecidableEq, Repr

/-- The `IAudioMetadata` shape consumed by the client. -/
structure IAudioMetadata where
  format : AudioFormat
deriving DecidableEq, Repr

/-- The errors the client itself raises (`throw new Error(...)` in
`src/index.ts`), plus a `transport` case for failures surfaced by the HTTP
layer or other collaborators, and an `outOfFuel` marker used only by the
bounded model of the unbounded polling loop. -/
inductive SpeechError where
  /-- `throw new Error('Failed to get access token')` in `getAccessToken`. -/
  | failedToGetAccessToken
  /-- `throw new Error('Recognition timeout')` in `speechToText`. -/
  | recognitionTimeout
  /-- an error thrown by an external collaborator, propagated unchanged -/
  | transport (msg : String)
  /-- model artifact: the fuel bound of the loop model was exhausted -/
  | outOfFuel
deriving DecidableEq, Repr

/-- An HTTP request as the client assembles it before handing it to the
transport (`axios`). -/
structure HttpRequest where
  method : String
  url : String
  headers : List (String × String)
  body : String
deriving DecidableEq, Repr

/-- Constant `SPEECH_TOKEN_URL` is imported from `./constants`, a file not in the
sources; its concrete value is irrelevant to every property proved here, so
it is an arbitrary fixed string. -/
def SPEECH_TOKEN_URL : String := "SPEECH_TOKEN_URL"

/-- Constant `SPEECH_BASE_URL` from `./constants` (value irrelevant, fixed string). -/
def SPEECH_BASE_URL : String := "SPEECH_BASE_URL"

/-- Constant `TOKEN_SCOPE` from `./constants` (value irrelevant, fixed string). -/
def TOKEN_SCOPE : String := "TOKEN_SCOPE"

/-- The per-instance state of `SberSaluteSpeechRecognitionService`: the
fields `authKey` (readonly), `sessionId` (readonly) and the mutable
`token : SberSaluteToken | null`. -/
structure ServiceState where
  authKey : String
  sessionId : String
  token : Option SberSaluteToken
deriving DecidableEq, Repr

/-- The constructor:
`this.authKey = authKey; this.sessionId = sessionId || uuid.v4();`
`generated` is the value `uuid.v4()` would produce; a supplied session id
equal to `""` is falsy in JavaScript, so `sessionId || uuid.v4()` replaces
it by the generated one.  `this.token` starts as `null`. -/
def mkService (authKey : String) (sessionId : Option String)
    (generated : String) : ServiceState :=
  { authKey := authKey
    sessionId :=
      match sessionId with
      | some s => if s = "" then generated else s
      | none => generated
    token := none }

/-- The token-exchange request assembled by `updateAccessToken`:
POST to `SPEECH_TOKEN_URL` with form-encoded body `scope=TOKEN_SCOPE`,
headers `Content-Type`, `RqUID: this.sessionId` and
`Authorization: Basic <authKey>`. -/
def updateAccessTokenRequest (s : ServiceState) : HttpRequest :=
  { method := "POST"
    url := SPEECH_TOKEN_URL
    headers :=
      [("Content-Type", "application/x-www-form-urlencoded"),
       ("RqUID", s.sessionId),
       ("Authorization", "Basic " ++ s.authKey)]
    body := "scope=" ++ TOKEN_SCOPE }

/-- The state mutation of `updateAccessToken`: `this.token = response.data`.
`exchangeResult` is the body the token endpoint answered with, `none` when
the exchange did not return a token. -/
def updateAccessToken (s : ServiceState)
    (exchangeResult : Option SberSaluteToken) : ServiceState :=
  { s with token := exchangeResult }

/-- The staleness test of `getAccessToken`:
`!this.token || this.token.expires_at < Date.now() - MAX_WAIT_TIME`. -/
def tokenIsStale (token : Option SberSaluteToken) (now maxWaitTime : Int) :
    Bool :=
  match token with
  | none => true
  | some t => t.expires_at < now - maxWaitTime

/-- Function `getAccessToken`: refresh the token when the staleness test fires, then
fail with `'Failed to get access token'` when no token is held, otherwise
return the held token.  Returns the result, the state after the call, and
the number of token exchanges performed (0 or 1). -/
def getAccessToken (s : ServiceState) (now maxWaitTime : Int)
    (exchangeResult : Option SberSaluteToken) :
    Except SpeechError SberSaluteToken × ServiceState × Nat :=
  let refreshed :=
    if tokenIsStale s.token now maxWaitTime then
      (updateAccessToken s exchangeResult, 1)
    else (s, 0)
  match refreshed.1.token with
  | none => (.error .failedToGetAccessToken, refreshed.1, refreshed.2)
  | some t => (.ok t, refreshed.1, refreshed.2)

/-- The upload request assembled by `uploadFileForRecognition`:
POST to `{SPEECH_BASE_URL}/data:upload` with bearer authorization and
`Content-Type: audio/mpeg`, whose body is `data: audioFilePath` — the file
path string itself, not the contents of the file at that path. -/
def uploadFileForRecognitionRequest (access_token audioFilePath : String) :
    HttpRequest :=
  { method := "post"
    url := SPEECH_BASE_URL ++ "/data:upload"
    headers :=
      [("Authorization", "Bearer " ++ access_token),
       ("Content-Type", "audio/mpeg")]
    body := audioFilePath }

/-- The status-query URL assembled by `getRecognitionStatus`:
`{SPEECH_BASE_URL}/task:get?id=${recognition.result.id}`. -/
def getRecognitionStatusUrl (recognition : RecognitionResponse) : String :=
  SPEECH_BASE_URL ++ "/task:get?id=" ++ recognition.result.id

/-- Model of JavaScript `String.prototype.trim` (the `.trim()` calls of
`speechToText`): remove leading and trailing whitespace.  Implemented
structurally over the character list so the kernel can evaluate it on
concrete strings. -/
def jsTrim (s : String) : String :=
  ⟨((s.data.dropWhile Char.isWhitespace).reverse.dropWhile
      Char.isWhitespace).reverse⟩

/-- The text aggregation in `speechToText`: nested left folds over the
segments and their fragments, prepending `' '` to each fragment's `text`,
then `.trim()`. -/
def aggregateText (r : RecognitionResultResponse) : String :=
  jsTrim
    (r.foldl
      (fun acc item =>
        acc ++ item.results.foldl (fun acc2 it => acc2 ++ " " ++ it.text) "")
      "")

/-- The normalized-text aggregation in `speechToText`: same folds over the
`normalized_text` fields, then `.trim()`. -/
def aggregateNormalizedText (r : RecognitionResultResponse) : String :=
  jsTrim
    (r.foldl
      (fun acc item =>
        acc ++
          item.results.foldl
            (fun acc2 it => acc2 ++ " " ++ it.normalized_text) "")
      "")

/-- The spec's description of the aggregator, written from its words:
flatten all segments' fragment sequences in order, concatenate a chosen
field with a single leading space per fragment, then trim. -/
def specAggregate (field : Fragment → String)
    (r : RecognitionResultResponse) : String :=
  jsTrim
    ((r.map Segment.results).flatten.foldl
      (fun acc f => acc ++ " " ++ field f) "")

/-- The externally observable steps of one `speechToText` call, in the order
they happen: the metadata parse, the upload POST, the recognition-start
POST, each status query GET (tagged with the job id in its URL), each
`delay(RECOGNITION_POLLING_DELAY)` suspension (tagged with the delay), and
the result-download GET. -/
inductive StageEvent where
  | parseFileEv
  | uploadEv
  | startRecognitionEv
  | statusQueryEv (jobId : String)
  | delayEv (ms : Int)
  | fetchResultEv
deriving DecidableEq, Repr

/-- Is the event one the polling loop can emit? -/
def StageEvent.isPollEv : StageEvent → Bool
  | .statusQueryEv _ => true
  | .delayEv _ => true
  | _ => false

/-- Is the event a status query? -/
def StageEvent.isQuery : StageEvent → Bool
  | .statusQueryEv _ => true
  | _ => false

/-- Is the event a polling-delay suspension? -/
def StageEvent.isDelay : StageEvent → Bool
  | .delayEv _ => true
  | _ => false

/-- Number of status queries in a trace. -/
def countQueries (evs : List StageEvent) : Nat :=
  (evs.filter StageEvent.isQuery).length

/-- Number of polling-delay suspensions in a trace. -/
def countDelays (evs : List StageEvent) : Nat :=
  (evs.filter StageEvent.isDelay).length

/-- The environment of one `speechToText` call: the answers of the external
collaborators, in oracle form.  `statusResp i` is the response of the i-th
status query (0-indexed); each stage's `Except` covers both its HTTP
response and any error thrown while performing it (token refresh included).
`startTime` is the `Date.now()` reading taken right before the first status
query; `checkTime i` is the `Date.now()` reading of the timeout check that
follows the i-th status query when its status is not `"DONE"`. -/
structure Env where
  metadata : Except SpeechError IAudioMetadata
  uploadResp : Except SpeechError FileUploadResponse
  startResp : Except SpeechError RecognitionResponse
  statusResp : Nat → Except SpeechError RecognitionStatusResponse
  resultResp : Except SpeechError RecognitionResultResponse
  startTime : Int
  checkTime : Nat → Int

/-- The polling loop of `speechToText`, from the first status query on:
query the status; stop successfully on `"DONE"`; otherwise throw
`'Recognition timeout'` when `Date.now() - startTime > MAX_WAIT_TIME`, else
suspend for the polling delay and query again.  `q` is the index of the
next query, `fuel` bounds the number of iterations of the unbounded source
loop (exhaustion is reported as `SpeechError.outOfFuel`).  Returns the
final status response together with the trace of queries and delays. -/
def pollStatuses (jobId : String)
    (statusResp : Nat → Except SpeechError RecognitionStatusResponse)
    (startTime : Int) (checkTime : Nat → Int)
    (maxWaitTime pollingDelay : Int) :
    Nat → Nat → Except SpeechError RecognitionStatusResponse × List StageEvent
  | 0, _ => (.error .outOfFuel, [])
  | fuel + 1, q =>
    match statusResp q with
    | .error e => (.error e, [.statusQueryEv jobId])
    | .ok st =>
      if st.result.status = "DONE" then
        (.ok st, [.statusQueryEv jobId])
      else if checkTime q - startTime > maxWaitTime then
        (.error .recognitionTimeout, [.statusQueryEv jobId])
      else
        let rest := pollStatuses jobId statusResp startTime checkTime
          maxWaitTime pollingDelay fuel (q + 1)
        (rest.1, .statusQueryEv jobId :: .delayEv pollingDelay :: rest.2)

/-- The `speechToText` orchestration: parse the file metadata, upload,
start recognition, poll the job status (always under the job id of the one
`RecognitionResponse`), download the result, aggregate.  Any stage failure
propagates unchanged and ends the run.  Returns the outcome and the trace
of stage events. -/
def speechToText (env : Env) (maxWaitTime pollingDelay : Int) (fuel : Nat) :
    Except SpeechError SpeechToTextResult × List StageEvent :=
  match env.metadata with
  | .error e => (.error e, [.parseFileEv])
  | .ok _metadata =>
    match env.uploadResp with
    | .error e => (.error e, [.parseFileEv, .uploadEv])
    | .ok _uploaded =>
      match env.startResp with
      | .error e => (.error e, [.parseFileEv, .uploadEv, .startRecognitionEv])
      | .ok recResp =>
        let poll := pollStatuses recResp.result.id env.statusResp
          env.startTime env.checkTime maxWaitTime pollingDelay fuel 0
        let evs := .parseFileEv :: .uploadEv :: .startRecognitionEv :: poll.2
        match poll.1 with
        | .error e => (.error e, evs)
        | .ok _finalStatus =>
          match env.resultResp with
          | .error e => (.error e, evs ++ [.fetchResultEv])
          | .ok res =>
            (.ok { text := aggregateText res
                   normalizedText := aggregateNormalizedText res },
             evs ++ [.fetchResultEv])

/-- The possible shapes of a `speechToText` trace: the run performs the
metadata parse, then possibly the upload, then possibly the recognition
start, then a (possibly empty) block of polling events, then possibly the
result fetch — each non-polling stage at most once and in this order. -/
def stageShape (evs : List StageEvent) : Prop :=
  ∃ pollEvs : List StageEvent,
    (∀ ev ∈ pollEvs, ev.isPollEv = true) ∧
    (evs = [.parseFileEv] ∨
     evs = [.parseFileEv, .uploadEv] ∨
     evs = .parseFileEv :: .uploadEv :: .startRecognitionEv :: pollEvs ∨
     evs = .parseFileEv :: .uploadEv :: .startRecognitionEv ::
       (pollEvs ++ [.fetchResultEv]))

/-! ## Helper lemmas -/

/-- A left fold that appends `g x` for each element can be started from `""`
and the seed prepended afterwards. -/
lemma foldl_append_shift {α : Type} (g : α → String) (l : List α) :
    ∀ a : String,
      l.foldl (fun acc x => acc ++ g x) a =
        a ++ l.foldl (fun acc x => acc ++ g x) "" := by
  induction l with
  | nil => intro a; simp
  | cons x xs ih =>
    intro a
    simp only [List.foldl_cons]
    rw [ih (a ++ g x), ih ("" ++ g x), String.empty_append,
      String.append_assoc]

/-- The fragment-level fold of the aggregation can also be started from
`""`, with the seed prepended. -/
lemma frag_foldl_shift (field : Fragment → String) (l : List Fragment) :
    ∀ a : String,
      l.foldl (fun acc f => acc ++ " " ++ field f) a =
        a ++ l.foldl (fun acc f => acc ++ " " ++ field f) "" := by
  induction l with
  | nil => intro a; simp
  | cons x xs ih =>
    intro a
    simp only [List.foldl_cons]
    rw [ih (a ++ " " ++ field x), ih ("" ++ " " ++ field x)]
    simp [String.append_assoc]

/-- The nested segment/fragment folds of the source equal one fold over the
flattened fragment list. -/
lemma nested_foldl_eq_flatten_foldl (field : Fragment → String)
    (r : List Segment) :
    r.foldl
        (fun acc item =>
          acc ++ item.results.foldl (fun acc2 f => acc2 ++ " " ++ field f) "")
        "" =
      (r.map Segment.results).flatten.foldl
        (fun acc f => acc ++ " " ++ field f) "" := by
  induction r with
  | nil => rfl
  | cons s rest ih =>
    simp only [List.foldl_cons, List.map_cons, List.flatten_cons,
      List.foldl_append]
    rw [String.empty_append,
      foldl_append_shift
        (fun item : Segment =>
          item.results.foldl (fun acc2 f => acc2 ++ " " ++ field f) "")
        rest, ih]
    conv_rhs =>
      rw [frag_foldl_shift field ((rest.map Segment.results).flatten)]

/-- Every event the polling loop emits is a status query or a delay. -/
lemma pollStatuses_events_are_poll (jobId : String)
    (statusResp : Nat → Except SpeechError RecognitionStatusResponse)
    (startTime : Int) (checkTime : Nat → Int)
    (maxWaitTime pollingDelay : Int) :
    ∀ (fuel q : Nat) (ev : StageEvent),
      ev ∈ (pollStatuses jobId statusResp startTime checkTime maxWaitTime
        pollingDelay fuel q).2 → ev.isPollEv = true := by
  intro fuel
  induction fuel with
  | zero => intro q ev h; simp [pollStatuses] at h
  | succ f ih =>
    intro q ev h
    simp only [pollStatuses] at h
    cases hq : statusResp q with
    | error e =>
      rw [hq] at h
      simp at h
      subst h; rfl
    | ok st =>
      rw [hq] at h
      by_cases hdone : st.result.status = "DONE"
      · simp [hdone] at h
        subst h; rfl
      · by_cases htime : checkTime q - startTime > maxWaitTime
        · simp [hdone, htime] at h
          subst h; rfl
        · simp [hdone, htime] at h
          rcases h with h | h | h
          · subst h; rfl
          · subst h; rfl
          · exact ih (q + 1) ev h

/-- If the polling loop times out, its result and trace are determined by
the first timeout check that fires: with all statuses non-`"DONE"` and `N`
the first check index past the ceiling, the loop raises the recognition
timeout after exactly `N + 1` queries, each but the last followed by one
delay, and ends at the detecting query. -/
lemma pollStatuses_timeout_aux (jobId : String)
    (statusResp : Nat → Except SpeechError RecognitionStatusResponse)
    (startTime : Int) (checkTime : Nat → Int)
    (maxWaitTime pollingDelay : Int)
    (hnd : ∀ i, ∃ st, statusResp i = .ok st ∧ st.result.status ≠ "DONE") :
    ∀ (N q fuel : Nat),
      (∀ i, i < N → checkTime (q + i) - startTime ≤ maxWaitTime) →
      checkTime (q + N) - startTime > maxWaitTime →
      N + 1 ≤ fuel →
      pollStatuses jobId statusResp startTime checkTime maxWaitTime
          pollingDelay fuel q =
        (.error .recognitionTimeout,
         (List.replicate N
             [StageEvent.statusQueryEv jobId,
              StageEvent.delayEv pollingDelay]).flatten ++
           [StageEvent.statusQueryEv jobId]) := by
  intro N
  induction N with
  | zero =>
    intro q fuel _hbefore hN hfuel
    obtain ⟨f, rfl⟩ : ∃ f, fuel = f + 1 := ⟨fuel - 1, by omega⟩
    obtain ⟨st, hst, hstatus⟩ := hnd q
    simp only [Nat.add_zero] at hN
    simp [pollStatuses, hst, hstatus, hN]
  | succ n ih =>
    intro q fuel hbefore hN hfuel
    obtain ⟨f, rfl⟩ : ∃ f, fuel = f + 1 := ⟨fuel - 1, by omega⟩
    obtain ⟨st, hst, hstatus⟩ := hnd q
    have hq0 : ¬ (checkTime q - startTime > maxWaitTime) := by
      have := hbefore 0 (Nat.succ_pos n)
      simp only [Nat.add_zero] at this
      omega
    have hrec := ih (q + 1) f
      (fun i hi => by
        have := hbefore (i + 1) (Nat.succ_lt_succ hi)
        simpa [Nat.add_assoc, Nat.add_comm 1 i] using this)
      (by simpa [Nat.add_assoc, Nat.add_comm 1 n] using hN)
      (by omega)
    simp [pollStatuses, hst, hstatus, hq0, hrec, List.replicate_succ]

/-! ## Claims -/

/-- Claim C1. The claim says the token accessor refreshes whenever
`now > expires_at - MAX_WAIT_TIME` (safety margin *before* expiry).  The
source tests `this.token.expires_at < Date.now() - MAX_WAIT_TIME`, a grace
period *after* expiry: at `now = 120`, `expires_at = 100`,
`MAX_WAIT_TIME = 50`, the claim's trigger holds (`120 > 100 - 50`) yet the
accessor performs zero exchanges and returns the token, which expired 20 ms
ago, with the state unchanged. -/
theorem getAccessToken_keeps_expired_token :
    ((120 : Int) > 100 - 50) ∧
    getAccessToken
        { authKey := "k", sessionId := "sid",
          token := some { access_token := "tok", expires_at := 100 } }
        120 50 none =
      (.ok { access_token := "tok", expires_at := 100 },
       { authKey := "k", sessionId := "sid",
         token := some { access_token := "tok", expires_at := 100 } },
       0) := by
  exact ⟨by norm_num, by rfl⟩

/-- Claim C2. The upload request built by `uploadFileForRecognition` for the
path `"/tmp/audio.mp3"`: a single POST with bearer authorization and an
audio content-type whose body is the path string itself — the builder never
reads the file, so the body is not the audio bytes at that path. -/
theorem uploadRequest_body_is_path :
    uploadFileForRecognitionRequest "tok123" "/tmp/audio.mp3" =
      { method := "post"
        url := SPEECH_BASE_URL ++ "/data:upload"
        headers :=
          [("Authorization", "Bearer tok123"),
           ("Content-Type", "audio/mpeg")]
        body := "/tmp/audio.mp3" } := by
  rfl

/-- Claim C6. A held token still within the freshness window (current time at
most `expires_at` minus the max-wait margin) is returned unchanged by the
accessor, with no token exchange and no state change. -/
theorem getAccessToken_fresh_token_unchanged (s : ServiceState)
    (t : SberSaluteToken) (now maxWaitTime : Int)
    (exchangeResult : Option SberSaluteToken)
    (htok : s.token = some t)
    (hfresh : now ≤ t.expires_at - maxWaitTime)
    (hmw : 0 ≤ maxWaitTime) :
    getAccessToken s now maxWaitTime exchangeResult = (.ok t, s, 0) := by
  have hstale : tokenIsStale (some t) now maxWaitTime = false := by
    simp only [tokenIsStale, decide_eq_false_iff_not, not_lt]
    omega
  simp [getAccessToken, htok, hstale]

/-- Witness for C6. A concrete fresh token is returned unchanged. -/
theorem getAccessToken_fresh_token_unchanged_witness :
    getAccessToken
        { authKey := "k", sessionId := "sid",
          token := some { access_token := "tok", expires_at := 1000 } }
        100 50 none =
      (.ok { access_token := "tok", expires_at := 1000 },
       { authKey := "k", sessionId := "sid",
         token := some { access_token := "tok", expires_at := 1000 } },
       0) :=
  getAccessToken_fresh_token_unchanged _ _ _ _ _ rfl (by norm_num)
    (by norm_num)

/-- Claim C9. When the staleness test fires (so a token exchange happens) and
the exchange does not return a token, the accessor fails with the
authentication error `'Failed to get access token'`. -/
theorem getAccessToken_no_token_fails (s : ServiceState)
    (now maxWaitTime : Int)
    (hstale : tokenIsStale s.token now maxWaitTime = true) :
    (getAccessToken s now maxWaitTime none).1 =
      .error .failedToGetAccessToken := by
  simp [getAccessToken, hstale, updateAccessToken]

/-- Witness for C9. With no token held and an exchange returning nothing,
the accessor fails. -/
theorem getAccessToken_no_token_fails_witness :
    (getAccessToken { authKey := "k", sessionId := "sid", token := none }
        0 50 none).1 = .error .failedToGetAccessToken :=
  getAccessToken_no_token_fails _ _ _ rfl

/-- Counterexample for C8. The claim says any supplied session identifier
is used as-is; but `sessionId || uuid.v4()` treats the empty string as
absent, so a caller-supplied `""` is replaced by the generated uuid. -/
theorem mkService_empty_sessionId_replaced :
    (mkService "key" (some "") "generated-uuid").sessionId =
        "generated-uuid" ∧
    "generated-uuid" ≠ "" := by
  exact ⟨rfl, by decide⟩

/-- Claim C8, amended: A *non-empty* supplied session identifier is used
as-is; with none supplied the generated one is used; the accessor (the only
mutating operation) never changes it; and it is sent as the `RqUID` header
on the token-exchange request. -/
theorem sessionId_fixed_and_sent (authKey g sid : String)
    (hsid : sid ≠ "") (s : ServiceState) (now maxWaitTime : Int)
    (exchangeResult : Option SberSaluteToken) :
    (mkService authKey (some sid) g).sessionId = sid ∧
    (mkService authKey none g).sessionId = g ∧
    (getAccessToken s now maxWaitTime exchangeResult).2.1.sessionId =
      s.sessionId ∧
    ("RqUID", s.sessionId) ∈ (updateAccessTokenRequest s).headers := by
  refine ⟨by simp [mkService, hsid], rfl, ?_, by simp [updateAccessTokenRequest]⟩
  cases hstale : tokenIsStale s.token now maxWaitTime with
  | false =>
    cases htok : s.token with
    | none => simp [tokenIsStale, htok] at hstale
    | some t =>
      rw [htok] at hstale
      simp [getAccessToken, htok, hstale]
  | true =>
    cases exchangeResult with
    | none => simp [getAccessToken, hstale, updateAccessToken]
    | some t => simp [getAccessToken, hstale, updateAccessToken]

/-- Witness for C8. The amended claim at concrete inputs. -/
theorem sessionId_fixed_and_sent_witness :
    (mkService "key" (some "sid-1") "gen").sessionId = "sid-1" ∧
    (mkService "key" none "gen").sessionId = "gen" ∧
    (getAccessToken { authKey := "key", sessionId := "sid-1", token := none }
        0 50 none).2.1.sessionId = "sid-1" ∧
    ("RqUID", "sid-1") ∈
      (updateAccessTokenRequest
        { authKey := "key", sessionId := "sid-1", token := none }).headers :=
  sessionId_fixed_and_sent "key" "gen" "sid-1" (by decide) _ 0 50 none

/-- Claim C5. The aggregation equals the spec's flatten/concatenate/trim
description, for both the `text` and the `normalized_text` field, and
yields `{text := "a b", normalizedText := "A B"}` on the two-fragment
example and empty strings on results with no fragments. -/
theorem aggregate_matches_spec (r : RecognitionResultResponse) :
    aggregateText r = specAggregate Fragment.text r ∧
    aggregateNormalizedText r = specAggregate Fragment.normalized_text r ∧
    aggregateText
        [{ results :=
            [{ text := "a", normalized_text := "A" },
             { text := "b", normalized_text := "B" }] }] = "a b" ∧
    aggregateNormalizedText
        [{ results :=
            [{ text := "a", normalized_text := "A" },
             { text := "b", normalized_text := "B" }] }] = "A B" ∧
    aggregateText [] = "" ∧
    aggregateNormalizedText [] = "" ∧
    aggregateText [{ results := [] }] = "" ∧
    aggregateNormalizedText [{ results := [] }] = "" := by
  refine ⟨?_, ?_, by decide, by decide, by decide, by decide, by decide,
    by decide⟩
  · unfold aggregateText specAggregate
    rw [nested_foldl_eq_flatten_foldl]
  · unfold aggregateNormalizedText specAggregate
    rw [nested_foldl_eq_flatten_foldl]

/-- The number of status queries in the trace of a timed-out poll. -/
lemma countQueries_timeout_trace (jobId : String) (pollingDelay : Int)
    (N : Nat) :
    countQueries
        ((List.replicate N
            [StageEvent.statusQueryEv jobId,
             StageEvent.delayEv pollingDelay]).flatten ++
          [StageEvent.statusQueryEv jobId]) = N + 1 := by
  simp [countQueries, List.filter_append, StageEvent.isQuery,
    List.filter_cons, Nat.mul_one]

/-- Claim C3. If every status query returns a non-`"DONE"` status and the
wall clock (read at the timeout checks, measured against the one
`startTime` taken before the first query) first exceeds the maximum wait
at check `N`, the polling loop raises the recognition-timeout error after
exactly `N + 1` status queries and its trace ends at the detecting query,
so no query follows the detection. -/
theorem polling_timeout (jobId : String)
    (statusResp : Nat → Except SpeechError RecognitionStatusResponse)
    (startTime : Int) (checkTime : Nat → Int)
    (maxWaitTime pollingDelay : Int) (N fuel : Nat)
    (hnd : ∀ i, ∃ st, statusResp i = .ok st ∧ st.result.status ≠ "DONE")
    (hbefore : ∀ i, i < N → checkTime i - startTime ≤ maxWaitTime)
    (hN : checkTime N - startTime > maxWaitTime)
    (hfuel : N + 1 ≤ fuel) :
    pollStatuses jobId statusResp startTime checkTime maxWaitTime
        pollingDelay fuel 0 =
      (.error .recognitionTimeout,
       (List.replicate N
           [StageEvent.statusQueryEv jobId,
            StageEvent.delayEv pollingDelay]).flatten ++
         [StageEvent.statusQueryEv jobId]) ∧
    countQueries
        ((List.replicate N
            [StageEvent.statusQueryEv jobId,
             StageEvent.delayEv pollingDelay]).flatten ++
          [StageEvent.statusQueryEv jobId]) = N + 1 := by
  refine ⟨?_, countQueries_timeout_trace jobId pollingDelay N⟩
  have h := pollStatuses_timeout_aux jobId statusResp startTime checkTime
    maxWaitTime pollingDelay hnd N 0 fuel
    (fun i hi => by simpa using hbefore i hi) (by simpa using hN) hfuel
  exact h

/-- Witness for C3. A run whose second timeout check is past the ceiling
times out after exactly two queries. -/
theorem polling_timeout_witness :
    pollStatuses "job-1"
        (fun _ => .ok
          { result :=
              { id := "job-1", created_at := "c", updated_at := "u",
                status := "RUNNING", response_file_id := "" } })
        0 (fun i => if i = 0 then 10 else 1000) 100 7 2 0 =
      (.error .recognitionTimeout,
       (List.replicate 1
           [StageEvent.statusQueryEv "job-1", StageEvent.delayEv 7]).flatten ++
         [StageEvent.statusQueryEv "job-1"]) ∧
    countQueries
        ((List.replicate 1
            [StageEvent.statusQueryEv "job-1",
             StageEvent.delayEv 7]).flatten ++
          [StageEvent.statusQueryEv "job-1"]) = 1 + 1 :=
  polling_timeout "job-1" _ 0 _ 100 7 1 2
    (fun _ => ⟨_, rfl, by decide⟩)
    (fun i hi => by
      have : i = 0 := by omega
      subst this
      norm_num)
    (by norm_num) (by norm_num)

/-- Claim C4. With statuses [A, B, "DONE"] (A, B not "DONE") and a clock that
never exceeds the maximum wait, the polling loop issues exactly 3 status
queries, every query under the same job id, the second and third each
preceded by exactly one fixed polling delay, and returns the third response
successfully. -/
theorem polling_three_queries (jobId : String)
    (statusResp : Nat → Except SpeechError RecognitionStatusResponse)
    (startTime : Int) (checkTime : Nat → Int)
    (maxWaitTime pollingDelay : Int) (fuel : Nat)
    (stA stB stD : RecognitionStatusResponse)
    (h0 : statusResp 0 = .ok stA) (hA : stA.result.status ≠ "DONE")
    (h1 : statusResp 1 = .ok stB) (hB : stB.result.status ≠ "DONE")
    (h2 : statusResp 2 = .ok stD) (hD : stD.result.status = "DONE")
    (hc0 : checkTime 0 - startTime ≤ maxWaitTime)
    (hc1 : checkTime 1 - startTime ≤ maxWaitTime)
    (hfuel : 3 ≤ fuel) :
    pollStatuses jobId statusResp startTime checkTime maxWaitTime
        pollingDelay fuel 0 =
      (.ok stD,
       [.statusQueryEv jobId, .delayEv pollingDelay,
        .statusQueryEv jobId, .delayEv pollingDelay,
        .statusQueryEv jobId]) ∧
    countQueries
        [.statusQueryEv jobId, .delayEv pollingDelay,
         .statusQueryEv jobId, .delayEv pollingDelay,
         .statusQueryEv jobId] = 3 := by
  obtain ⟨f, rfl⟩ : ∃ f, fuel = f + 1 + 1 + 1 := ⟨fuel - 3, by omega⟩
  have hc0' : ¬ (checkTime 0 - startTime > maxWaitTime) := by omega
  have hc1' : ¬ (checkTime 1 - startTime > maxWaitTime) := by omega
  refine ⟨?_, rfl⟩
  simp [pollStatuses, h0, h1, h2, hA, hB, hD, hc0', hc1']

/-- Witness for C4. A concrete [RUNNING, RUNNING, DONE] run issues exactly
3 queries with a delay before the second and the third. -/
theorem polling_three_queries_witness :
    pollStatuses "job-1"
        (fun i =>
          if i < 2 then
            .ok { result :=
              { id := "job-1", created_at := "c", updated_at := "u",
                status := "RUNNING", response_file_id := "" } }
          else
            .ok { result :=
              { id := "job-1", created_at := "c", updated_at := "u",
                status := "DONE", response_file_id := "file-9" } })
        0 (fun _ => 10) 100 7 3 0 =
      (.ok { result :=
          { id := "job-1", created_at := "c", updated_at := "u",
            status := "DONE", response_file_id := "file-9" } },
       [.statusQueryEv "job-1", .delayEv 7,
        .statusQueryEv "job-1", .delayEv 7,
        .statusQueryEv "job-1"]) ∧
    countQueries
        [.statusQueryEv "job-1", .delayEv 7,
         .statusQueryEv "job-1", .delayEv 7,
         .statusQueryEv "job-1"] = 3 :=
  polling_three_queries "job-1" _ 0 _ 100 7 3 _ _ _
    rfl (by decide) rfl (by decide) rfl rfl
    (by norm_num) (by norm_num) (by norm_num)

/-- Claim C10. When the very first status query answers "DONE", the run of
`speechToText` performs exactly one status query, never awaits a polling
delay, and cannot fail with the recognition-timeout error — whatever
`startTime` and timeout-check clock readings the earlier stages left
behind. -/
theorem speechToText_first_status_done (env : Env)
    (maxWaitTime pollingDelay : Int) (fuel : Nat)
    (md : IAudioMetadata) (up : FileUploadResponse)
    (recResp : RecognitionResponse) (st : RecognitionStatusResponse)
    (hmd : env.metadata = .ok md) (hup : env.uploadResp = .ok up)
    (hst : env.startResp = .ok recResp)
    (h0 : env.statusResp 0 = .ok st) (hdone : st.result.status = "DONE")
    (hres : env.resultResp ≠ .error .recognitionTimeout)
    (hfuel : 1 ≤ fuel) :
    countQueries (speechToText env maxWaitTime pollingDelay fuel).2 = 1 ∧
    countDelays (speechToText env maxWaitTime pollingDelay fuel).2 = 0 ∧
    (speechToText env maxWaitTime pollingDelay fuel).1 ≠
      .error .recognitionTimeout := by
  obtain ⟨f, rfl⟩ : ∃ f, fuel = f + 1 := ⟨fuel - 1, by omega⟩
  have hpoll : pollStatuses recResp.result.id env.statusResp env.startTime
      env.checkTime maxWaitTime pollingDelay (f + 1) 0 =
      (.ok st, [.statusQueryEv recResp.result.id]) := by
    simp [pollStatuses, h0, hdone]
  cases hrr : env.resultResp with
  | error e =>
    have hne : e ≠ .recognitionTimeout := by
      rintro rfl
      exact hres hrr
    simp [speechToText, hmd, hup, hst, hpoll, hrr, countQueries, countDelays,
      StageEvent.isQuery, StageEvent.isDelay, hne]
  | ok res =>
    simp [speechToText, hmd, hup, hst, hpoll, hrr, countQueries, countDelays,
      StageEvent.isQuery, StageEvent.isDelay]

/-- Witness for C10. A concrete run whose first status is "DONE" does one
query, zero delays, and does not time out, even with huge check times. -/
theorem speechToText_first_status_done_witness :
    countQueries
        (speechToText
          { metadata := .ok { format :=
              { sampleRate := some 16000, numberOfChannels := some 1 } }
            uploadResp := .ok { result := { request_file_id := "f-1" } }
            startResp := .ok { result :=
              { id := "job-1", created_at := "c", updated_at := "u",
                status := "NEW" } }
            statusResp := fun _ => .ok { result :=
              { id := "job-1", created_at := "c", updated_at := "u",
                status := "DONE", response_file_id := "file-9" } }
            resultResp := .ok []
            startTime := 0
            checkTime := fun _ => 1000000 }
          100 7 3).2 = 1 ∧
    countDelays
        (speechToText
          { metadata := .ok { format :=
              { sampleRate := some 16000, numberOfChannels := some 1 } }
            uploadResp := .ok { result := { request_file_id := "f-1" } }
            startResp := .ok { result :=
              { id := "job-1", created_at := "c", updated_at := "u",
                status := "NEW" } }
            statusResp := fun _ => .ok { result :=
              { id := "job-1", created_at := "c", updated_at := "u",
                status := "DONE", response_file_id := "file-9" } }
            resultResp := .ok []
            startTime := 0
            checkTime := fun _ => 1000000 }
          100 7 3).2 = 0 ∧
    (speechToText
          { metadata := .ok { format :=
              { sampleRate := some 16000, numberOfChannels := some 1 } }
            uploadResp := .ok { result := { request_file_id := "f-1" } }
            startResp := .ok { result :=
              { id := "job-1", created_at := "c", updated_at := "u",
                status := "NEW" } }
            statusResp := fun _ => .ok { result :=
              { id := "job-1", created_at := "c", updated_at := "u",
                status := "DONE", response_file_id := "file-9" } }
            resultResp := .ok []
            startTime := 0
            checkTime := fun _ => 1000000 }
          100 7 3).1 ≠ .error .recognitionTimeout :=
  speechToText_first_status_done _ 100 7 3 _ _ _ _
    rfl rfl rfl rfl rfl (by simp) (by norm_num)

/-- Claim C7. One `speechToText` run executes the stages at most once each,
in order (its trace always has the `stageShape` form: parse, then upload,
then start, then polling events, then fetch, with no repetition of the
non-polling stages), and every stage failure aborts the run right there
with the stage's own error unchanged; when all stages succeed the result is
the complete aggregate of the fetched segments — never a partial
transcript. -/
theorem speechToText_stages_once (env : Env)
    (maxWaitTime pollingDelay : Int) (fuel : Nat) :
    stageShape (speechToText env maxWaitTime pollingDelay fuel).2 ∧
    (∀ e, env.metadata = .error e →
      speechToText env maxWaitTime pollingDelay fuel =
        (.error e, [.parseFileEv])) ∧
    (∀ md e, env.metadata = .ok md → env.uploadResp = .error e →
      speechToText env maxWaitTime pollingDelay fuel =
        (.error e, [.parseFileEv, .uploadEv])) ∧
    (∀ md up e, env.metadata = .ok md → env.uploadResp = .ok up →
      env.startResp = .error e →
      speechToText env maxWaitTime pollingDelay fuel =
        (.error e, [.parseFileEv, .uploadEv, .startRecognitionEv])) ∧
    (∀ md up recResp e evs, env.metadata = .ok md →
      env.uploadResp = .ok up → env.startResp = .ok recResp →
      pollStatuses recResp.result.id env.statusResp env.startTime
        env.checkTime maxWaitTime pollingDelay fuel 0 = (.error e, evs) →
      speechToText env maxWaitTime pollingDelay fuel =
        (.error e,
         .parseFileEv :: .uploadEv :: .startRecognitionEv :: evs)) ∧
    (∀ md up recResp stF evs e, env.metadata = .ok md →
      env.uploadResp = .ok up → env.startResp = .ok recResp →
      pollStatuses recResp.result.id env.statusResp env.startTime
        env.checkTime maxWaitTime pollingDelay fuel 0 = (.ok stF, evs) →
      env.resultResp = .error e →
      speechToText env maxWaitTime pollingDelay fuel =
        (.error e,
         .parseFileEv :: .uploadEv :: .startRecognitionEv ::
           (evs ++ [.fetchResultEv]))) ∧
    (∀ md up recResp stF evs res, env.metadata = .ok md →
      env.uploadResp = .ok up → env.startResp = .ok recResp →
      pollStatuses recResp.result.id env.statusResp env.startTime
        env.checkTime maxWaitTime pollingDelay fuel 0 = (.ok stF, evs) →
      env.resultResp = .ok res →
      speechToText env maxWaitTime pollingDelay fuel =
        (.ok { text := aggregateText res
               normalizedText := aggregateNormalizedText res },
         .parseFileEv :: .uploadEv :: .startRecognitionEv ::
           (evs ++ [.fetchResultEv]))) := by
  refine ⟨?_, ?_, ?_, ?_, ?_, ?_, ?_⟩
  · cases hmd : env.metadata with
    | error e => exact ⟨[], by simp, Or.inl (by simp [speechToText, hmd])⟩
    | ok md =>
      cases hup : env.uploadResp with
      | error e =>
        exact ⟨[], by simp, Or.inr (Or.inl (by simp [speechToText, hmd, hup]))⟩
      | ok up =>
        cases hst : env.startResp with
        | error e =>
          exact ⟨[], by simp,
            Or.inr (Or.inr (Or.inl (by simp [speechToText, hmd, hup, hst])))⟩
        | ok recResp =>
          rcases hpoll : pollStatuses recResp.result.id env.statusResp
            env.startTime env.checkTime maxWaitTime pollingDelay fuel 0
            with ⟨r, evs⟩
          refine ⟨evs, fun ev hev =>
            pollStatuses_events_are_poll recResp.result.id env.statusResp
              env.startTime env.checkTime maxWaitTime pollingDelay fuel 0 ev
              (by rw [hpoll]; exact hev), ?_⟩
          cases r with
          | error e =>
            exact Or.inr (Or.inr (Or.inl
              (by simp [speechToText, hmd, hup, hst, hpoll])))
          | ok stF =>
            cases hrr : env.resultResp with
            | error e =>
              exact Or.inr (Or.inr (Or.inr
                (by simp [speechToText, hmd, hup, hst, hpoll, hrr])))
            | ok res =>
              exact Or.inr (Or.inr (Or.inr
                (by simp [speechToText, hmd, hup, hst, hpoll, hrr])))
  · intro e hmd
    simp [speechToText, hmd]
  · intro md e hmd hup
    simp [speechToText, hmd, hup]
  · intro md up e hmd hup hst
    simp [speechToText, hmd, hup, hst]
  · intro md up recResp e evs hmd hup hst hpoll
    simp [speechToText, hmd, hup, hst, hpoll]
  · intro md up recResp stF evs e hmd hup hst hpoll hrr
    simp [speechToText, hmd, hup, hst, hpoll, hrr]
  · intro md up recResp stF evs res hmd hup hst hpoll hrr
    simp [speechToText, hmd, hup, hst, hpoll, hrr]

/-- Witness for C7. On a concrete environment whose upload stage fails, the
run stops at the upload with that very error and no later stage events. -/
theorem speechToText_stages_once_witness :
    speechToText
        { metadata := .ok { format :=
            { sampleRate := some 16000, numberOfChannels := some 1 } }
          uploadResp := .error (.transport "boom")
          startResp := .ok { result :=
            { id := "job-1", created_at := "c", updated_at := "u",
              status := "NEW" } }
          statusResp := fun _ => .ok { result :=
            { id := "job-1", created_at := "c", updated_at := "u",
              status := "DONE", response_file_id := "file-9" } }
          resultResp := .ok []
          startTime := 0
          checkTime := fun _ => 0 }
        100 7 3 =
      (.error (.transport "boom"), [.parseFileEv, .uploadEv]) :=
  (speechToText_stages_once
    { metadata := .ok { format :=
        { sampleRate := some 16000, numberOfChannels := some 1 } }
      uploadResp := .error (.transport "boom")
      startResp := .ok { result :=
        { id := "job-1", created_at := "c", updated_at := "u",
          status := "NEW" } }
      statusResp := fun _ => .ok { result :=
        { id := "job-1", created_at := "c", updated_at := "u",
          status := "DONE", response_file_id := "file-9" } }
      resultResp := .ok []
      startTime := 0
      checkTime := fun _ => 0 }
    100 7 3).2.2.1
    { format := { sampleRate := some 16000, numberOfChannels := some 1 } }
    (.transport "boom") rfl rfl

end SberSalute
